import Mathlib

set_option maxRecDepth 8000

/-!
Shallow embedding of the asynchronous query-orchestration subsystem of
PyScraper_PortalDaTransparencia.

Embedded modules:
 - app/Repositories/consulta_repo.py   (ConsultaRepository: the job state store)
 - app/utils/date_utils.py             (dict_mes_numero, split_data, data_valida)
 - app/utils/validators.py             (validar_parametros)
 - app/Services/consulta_service.py    (ConsultaService.processar_consulta and
                                        _executar_consulta_sequencial)
 - app/utils/performance_tracker.py    (PerformanceTracker.salvar_metrica)

Modelling choices:
 - Python dicts of the store are association lists keyed by the job id string;
   assignment replaces in place, membership-guarded updates mutate in place.
 - Python sets of years are Finset Int; Python ints are Int (Nat for counters
   that start at 0 and only grow by list lengths).
 - Result rows are string-keyed maps; their content is never inspected by the
   core, only collected and counted.
 - Wall-clock fields of the metric record (timestamp and the three duration
   fields) are not modelled: they are real-time measurements.
 - The external Data Fetch Provider (TransparenciaScraper.executar_scraper,
   returning a list of row dicts or raising) is an oracle parameter of type
   Int -> String -> String -> Except String (List Row); an error value stands
   for a raised exception carrying str(e).
 - Python exceptions are Except String values; a function that cannot raise is
   total.
-/

/-- Result row: a dict from column names to cell values, as produced by the
scraper and carried opaquely by the service and the repository. -/
abbrev Row := List (String × String)

/-- Performance metric record (PerformanceMetric dataclass), without the
wall-clock fields (timestamp, tempo_total_segundos, tempo_scraping_segundos,
tempo_processamento_segundos) and without thread_id, which identify real time
and real threads. -/
structure Metrica where
  endpoint : String
  operation : String
  anoInicio : Int
  anoFim : Int
  mesInicio : String
  mesFim : String
  numeroRegistros : Nat
  sucesso : Bool
  erroDescricao : Option String
  idConsulta : Option String
deriving DecidableEq

/-- Job record stored by ConsultaRepository under one id: the dict built in
iniciar_consulta. -/
structure Consulta where
  status : String
  mensagem : String
  dados : List Row
  anosPendentes : Finset Int
  anosConcluidos : Finset Int
  totalRegistros : Nat
deriving DecidableEq

/-- The repository map self.consultas, as an association list from job id to
job record. The mutex around every operation is not modelled: each operation
is a single atomic store update here, which is exactly what the lock
guarantees. -/
abbrev Store := List (String × Consulta)

/-- Python dict lookup id in consultas / consultas[id]. -/
def findConsulta : Store → String → Option Consulta
  | [], _ => none
  | (k, c) :: rest, id => if k = id then some c else findConsulta rest id

/-- Python dict assignment consultas[id] = c: replaces the binding in place
when the key exists, appends a fresh binding otherwise. -/
def setConsulta : Store → String → Consulta → Store
  | [], id, c => [(id, c)]
  | (k, c0) :: rest, id, c =>
      if k = id then (id, c) :: rest else (k, c0) :: setConsulta rest id c

/-- The pattern `if id_consulta in self.consultas: mutate consultas[id]` used
by every repository operation except iniciar_consulta: update in place when
present, no-op otherwise. -/
def updateConsulta : Store → String → (Consulta → Consulta) → Store
  | [], _, _ => []
  | (k, c0) :: rest, id, f =>
      if k = id then (k, f c0) :: rest else (k, c0) :: updateConsulta rest id f

/-- The fresh record built by ConsultaRepository.iniciar_consulta:
status "processando", empty data, pending years = set(range(a, b + 1)),
no concluded years, zero records. -/
def novaConsulta (anoInicio anoFim : Int) : Consulta :=
  { status := "processando"
    mensagem := "Iniciando consulta para anos " ++ toString anoInicio ++
      " a " ++ toString anoFim
    dados := []
    anosPendentes := Finset.Icc anoInicio anoFim
    anosConcluidos := ∅
    totalRegistros := 0 }

/-- ConsultaRepository.iniciar_consulta: unconditionally assigns the fresh
record to consultas[id_consulta]. -/
def iniciarConsulta (s : Store) (id : String) (anoInicio anoFim : Int) : Store :=
  setConsulta s id (novaConsulta anoInicio anoFim)

/-- Progress message rebuilt at the end of adicionar_resultados_ano. -/
def mensagemProgresso (c : Consulta) : String :=
  "Processados " ++ toString c.anosConcluidos.card ++ " de " ++
    toString (c.anosConcluidos.card + c.anosPendentes.card) ++ " anos. Total: " ++
    toString c.totalRegistros ++ " registros."

/-- The block shared verbatim by adicionar_resultados_ano and
registrar_erro_ano: if the year is still pending, remove it from the pending
set and add it to the concluded set. -/
def moverAnoPendente (ano : Int) (c : Consulta) : Consulta :=
  if ano ∈ c.anosPendentes then
    { c with
      anosPendentes := c.anosPendentes.erase ano
      anosConcluidos := insert ano c.anosConcluidos }
  else c

/-- Record-level body of adicionar_resultados_ano: extend dados and bump
total_registros if the result list is nonempty (a falsy empty list skips that
block), move the year from pending to concluded if it is pending, then
rewrite the progress message. -/
def adicionarResultadosAnoRec (ano : Int) (resultados : List Row)
    (c : Consulta) : Consulta :=
  let c1 :=
    if resultados = [] then c
    else { c with
      dados := c.dados ++ resultados
      totalRegistros := c.totalRegistros + resultados.length }
  let c2 := moverAnoPendente ano c1
  { c2 with mensagem := mensagemProgresso c2 }

/-- Record-level body of registrar_erro_ano: append the error note to the
message, then move the year from pending to concluded if it is pending. -/
def registrarErroAnoRec (ano : Int) (erro : String) (c : Consulta) : Consulta :=
  moverAnoPendente ano
    { c with
      mensagem := c.mensagem ++ " Erro no ano " ++ toString ano ++ ": " ++ erro }

/-- Record-level body of finalizar_consulta. -/
def finalizarConsultaRec (c : Consulta) : Consulta :=
  { c with
    status := "concluido"
    mensagem := "Consulta concluída. Total: " ++ toString c.totalRegistros ++
      " registros." }

/-- ConsultaRepository.atualizar_status_processando. -/
def atualizarStatusProcessando (s : Store) (id : String) (msg : String) : Store :=
  updateConsulta s id fun c => { c with mensagem := msg }

/-- ConsultaRepository.adicionar_resultados_ano. -/
def adicionarResultadosAno (s : Store) (id : String) (ano : Int)
    (resultados : List Row) : Store :=
  updateConsulta s id (adicionarResultadosAnoRec ano resultados)

/-- ConsultaRepository.registrar_erro_ano. -/
def registrarErroAno (s : Store) (id : String) (ano : Int) (erro : String) : Store :=
  updateConsulta s id (registrarErroAnoRec ano erro)

/-- ConsultaRepository.finalizar_consulta. -/
def finalizarConsulta (s : Store) (id : String) : Store :=
  updateConsulta s id finalizarConsultaRec

/-- ConsultaRepository.registrar_erro_consulta. -/
def registrarErroConsulta (s : Store) (id : String) (erro : String) : Store :=
  updateConsulta s id fun c =>
    { c with status := "erro", mensagem := "Erro: " ++ erro }

/-- Snapshot returned by ConsultaRepository.obter_consulta, shaped by
status. Python list(set) is rendered as the sorted list of the Finset. -/
inductive View where
  | notFound (error : String)
  | concluido (dados : List Row) (totalRegistros : Nat) (anosProcessados : List Int)
  | erro (mensagem : String)
  | processando (mensagem : String) (anosConcluidos anosPendentes : List Int)
      (registrosAteAgora : Nat)
deriving DecidableEq

/-- Sorted-list rendering of a year set, for the list(...) conversions in
obter_consulta. -/
def listaAnos (a : Finset Int) : List Int := a.sort (· ≤ ·)

/-- ConsultaRepository.obter_consulta: copies the record under the lock and
formats it by status; does not mutate the store. -/
def obterConsulta (s : Store) (id : String) : View :=
  match findConsulta s id with
  | none => View.notFound "Consulta não encontrada"
  | some c =>
      if c.status = "concluido" then
        View.concluido c.dados c.totalRegistros (listaAnos c.anosConcluidos)
      else if c.status = "erro" then
        View.erro c.mensagem
      else
        View.processando c.mensagem (listaAnos c.anosConcluidos)
          (listaAnos c.anosPendentes) c.totalRegistros

/-- Polling step: obter_consulta reads a copy and performs no store mutation,
so a poll returns the view together with the unchanged store. -/
def poll (s : Store) (id : String) : View × Store :=
  (obterConsulta s id, s)

/-- Value of a string of decimal digits, most significant first. -/
def digitsToNat (cs : List Char) : Nat :=
  cs.foldl (fun acc c => 10 * acc + (c.toNat - 48)) 0

/-- Python int(s) on the strings reachable here: an optional leading minus
sign followed by decimal digits (the surrounding-whitespace, plus-sign and
underscore forms of the int literal grammar never reach these call sites,
which feed int only strings admitted by the MM/YYYY digit checks). -/
def pyInt : List Char → Option Int
  | [] => none
  | c :: rest =>
      if c = '-' then
        if rest ≠ [] ∧ rest.all Char.isDigit then
          some (-(digitsToNat rest : Int))
        else none
      else if (c :: rest).all Char.isDigit then some (digitsToNat (c :: rest) : Int)
      else none

/-- Python str.split(sep) for a single-character separator, on the char list
of the string. -/
def splitChar (sep : Char) : List Char → List (List Char)
  | [] => [[]]
  | c :: rest =>
      let r := splitChar sep rest
      if c = sep then [] :: r
      else
        match r with
        | h :: t => (c :: h) :: t
        | [] => [[c]]

/-- Char-level reading of the anchored regex of data_valida, two digits, a
slash, four digits. -/
def matchesMMYYYY : List Char → Bool
  | [d1, d2, s, y1, y2, y3, y4] =>
      d1.isDigit && d2.isDigit && s = '/' && y1.isDigit && y2.isDigit &&
        y3.isDigit && y4.isDigit
  | _ => false

/-- Validity of datetime(year, month, day=1): month in 1..12 and year in
1..9999. -/
def datetimeValida (mes ano : Int) : Bool :=
  1 ≤ mes && mes ≤ 12 && 1 ≤ ano && ano ≤ 9999

/-- date_utils.data_valida: the anchored regex match, then the try block that
splits on the slash, converts both parts with int and builds
datetime(year=ano, month=mes, day=1); any failure yields False. -/
def dataValida (s : String) : Bool :=
  matchesMMYYYY s.data &&
    (match splitChar '/' s.data with
     | [p1, p2] =>
         match pyInt p1, pyInt p2 with
         | some mes, some ano => datetimeValida mes ano
         | _, _ => false
     | _ => false)

/-- date_utils.split_data: error values carry the raised ValueError message
family (exact interpolated text abbreviated). The two explicit raises and the
int conversion failures happen inside the try block and are re-raised wrapped
in the converter message; the parts-count raise sits before the try block. -/
def splitData (s : String) : Except String (Int × Int) :=
  match splitChar '/' s.data with
  | [p1, p2] =>
      match pyInt p1, pyInt p2 with
      | some mes, some ano =>
          if mes < 1 ∨ 12 < mes then
            Except.error "Erro ao converter data: Mês inválido."
          else if ano < 2002 ∨ 2023 < ano then
            Except.error "Erro ao converter data: Ano fora do intervalo válido."
          else Except.ok (mes, ano)
      | _, _ => Except.error "Erro ao converter data: invalid literal for int."
  | _ => Except.error "Formato de data inválido. Use MM/AAAA."

/-- date_utils.dict_mes_numero: month number to upper-case Portuguese month
name. A key outside 1..12 raises KeyError in Python; every call site passes a
month admitted by validar_parametros or the constants 1 and 12, so the
default branch is unreachable and is rendered as the empty string. -/
def dictMesNumero (m : Int) : String :=
  if m = 1 then "JANEIRO"
  else if m = 2 then "FEVEREIRO"
  else if m = 3 then "MARÇO"
  else if m = 4 then "ABRIL"
  else if m = 5 then "MAIO"
  else if m = 6 then "JUNHO"
  else if m = 7 then "JULHO"
  else if m = 8 then "AGOSTO"
  else if m = 9 then "SETEMBRO"
  else if m = 10 then "OUTUBRO"
  else if m = 11 then "NOVEMBRO"
  else if m = 12 then "DEZEMBRO"
  else ""

/-- validators.validar_parametros: requires both fields nonempty (Python
truthiness of str), both dates well formed per data_valida, both parseable by
split_data, and start not after end; returns
(mes_inicio, ano_inicio, mes_fim, ano_fim). -/
def validarParametros (dataInicio dataFim : String) :
    Except String (Int × Int × Int × Int) :=
  if dataInicio = "" ∨ dataFim = "" then
    Except.error "Os campos data_inicio e data_fim são obrigatórios."
  else if ¬ (dataValida dataInicio ∧ dataValida dataFim) then
    Except.error "Formato de data inválido. Use MM/YYYY."
  else
    match splitData dataInicio with
    | Except.error e => Except.error e
    | Except.ok (mesInicio, anoInicio) =>
        match splitData dataFim with
        | Except.error e => Except.error e
        | Except.ok (mesFim, anoFim) =>
            if anoInicio > anoFim ∨ (anoInicio = anoFim ∧ mesInicio > mesFim) then
              Except.error "A data de início não pode ser maior que a data de fim."
            else Except.ok (mesInicio, anoInicio, mesFim, anoFim)

/-- Oracle for the external Data Fetch Provider
(TransparenciaScraper.executar_scraper): given the year and the two month
names it returns the fetched rows or raises with a message. -/
abbrev Fetch := Int → String → String → Except String (List Row)

/-- The Python list range(ano_inicio, ano_fim + 1). -/
def anosList (anoInicio anoFim : Int) : List Int :=
  (List.range (anoFim + 1 - anoInicio).toNat).map fun (i : Nat) => anoInicio + (i : Int)

/-- Body of processar_consulta returned to the route layer: the 202-style
processing acknowledgement of the asynchronous branch or the data payload of
the synchronous branch. -/
inductive SubmitResp where
  | processando (mensagem idConsulta consultarStatus : String)
  | dados (dados : List Row) (totalRegistros : Nat)
deriving DecidableEq

deriving instance DecidableEq for Except

/-- Everything observable about one processar_consulta call: the returned
body or the propagated exception, the store afterwards, the metric records
saved (in emission order), and the worker scheduling with its arguments when
one was handed to background_tasks (id, ano_inicio, mes_inicio, ano_fim,
mes_fim). -/
structure SubmitOutcome where
  resultado : Except String SubmitResp
  store : Store
  metricas : List Metrica
  worker : Option (String × Int × Int × Int × Int)
deriving DecidableEq

/-- ConsultaService.processar_consulta. The fresh uuid4 string is the idNovo
parameter; the fetch oracle stands for self.scraper_service.executar_scraper.
A validation failure propagates before any store or metric effect. -/
def processarConsulta (fetch : Fetch) (idNovo : String)
    (dataInicio dataFim : String) (s : Store) : SubmitOutcome :=
  match validarParametros dataInicio dataFim with
  | Except.error e => ⟨Except.error e, s, [], none⟩
  | Except.ok (mesInicio, anoInicio, mesFim, anoFim) =>
      if anoInicio ≠ anoFim then
        ⟨Except.ok (SubmitResp.processando
            ("Consulta para os anos " ++ toString anoInicio ++ " a " ++
              toString anoFim ++ " iniciada em background")
            idNovo
            ("/status-consulta/" ++ idNovo)),
          iniciarConsulta s idNovo anoInicio anoFim,
          [{ endpoint := "/consultar"
             operation := "consulta_assincrona_inicio"
             anoInicio := anoInicio, anoFim := anoFim
             mesInicio := dictMesNumero mesInicio, mesFim := dictMesNumero mesFim
             numeroRegistros := 0, sucesso := true
             erroDescricao := none, idConsulta := some idNovo }],
          some (idNovo, anoInicio, mesInicio, anoFim, mesFim)⟩
      else
        match fetch anoInicio (dictMesNumero mesInicio) (dictMesNumero mesFim) with
        | Except.ok resultado =>
            ⟨Except.ok (SubmitResp.dados resultado resultado.length), s,
              [{ endpoint := "/consultar"
                 operation := "consulta_sincrona"
                 anoInicio := anoInicio, anoFim := anoFim
                 mesInicio := dictMesNumero mesInicio, mesFim := dictMesNumero mesFim
                 numeroRegistros := resultado.length, sucesso := true
                 erroDescricao := none, idConsulta := none }],
              none⟩
        | Except.error e =>
            ⟨Except.error e, s,
              [{ endpoint := "/consultar"
                 operation := "consulta_sincrona"
                 anoInicio := anoInicio, anoFim := anoFim
                 mesInicio := dictMesNumero mesInicio, mesFim := dictMesNumero mesFim
                 numeroRegistros := 0, sucesso := false
                 erroDescricao := some e, idConsulta := none }],
              none⟩

/-- Observable outcome of the background worker: the store afterwards, the
metric records saved in emission order, the fetch calls issued as
(year, first month, last month) in call order, and the running
total_registros accumulator of the loop. -/
structure WorkerOut where
  store : Store
  metricas : List Metrica
  chamadas : List (Int × Int × Int)
  totalRegistros : Nat
deriving DecidableEq

/-- Per-year success metric of _executar_consulta_sequencial. -/
def metricaAno (ano m1 m2 : Int) (registros : Nat) (id : String) : Metrica :=
  { endpoint := "/consultar"
    operation := "consulta_assincrona_ano"
    anoInicio := ano, anoFim := ano
    mesInicio := dictMesNumero m1, mesFim := dictMesNumero m2
    numeroRegistros := registros, sucesso := true
    erroDescricao := none, idConsulta := some id }

/-- Per-year failure metric of _executar_consulta_sequencial. -/
def metricaAnoErro (ano m1 m2 : Int) (erro : String) (id : String) : Metrica :=
  { endpoint := "/consultar"
    operation := "consulta_assincrona_ano"
    anoInicio := ano, anoFim := ano
    mesInicio := dictMesNumero m1, mesFim := dictMesNumero m2
    numeroRegistros := 0, sucesso := false
    erroDescricao := some erro, idConsulta := some id }

/-- The for loop of _executar_consulta_sequencial over the remaining years.
For each year: push the progress message, compute the month span for the
year, call the fetch oracle; on success save the per-year success metric and
add the results through the repository; on a raise save the per-year failure
metric with str(e) and record the error through the repository; either way
continue with the next year. -/
def workerLoop (fetch : Fetch) (id : String) (anoInicio mesInicio anoFim mesFim : Int) :
    List Int → Store → WorkerOut
  | [], s => ⟨s, [], [], 0⟩
  | ano :: rest, s =>
      let m1 := if ano = anoInicio then mesInicio else 1
      let m2 := if ano = anoFim then mesFim else 12
      let s1 := atualizarStatusProcessando s id
        ("Processando ano " ++ toString ano ++ " - " ++ dictMesNumero m1 ++
          " a " ++ dictMesNumero m2)
      match fetch ano (dictMesNumero m1) (dictMesNumero m2) with
      | Except.ok resultadoAno =>
          let s2 := adicionarResultadosAno s1 id ano resultadoAno
          let rec' := workerLoop fetch id anoInicio mesInicio anoFim mesFim rest s2
          ⟨rec'.store, metricaAno ano m1 m2 resultadoAno.length id :: rec'.metricas,
            (ano, m1, m2) :: rec'.chamadas, resultadoAno.length + rec'.totalRegistros⟩
      | Except.error e =>
          let s2 := registrarErroAno s1 id ano e
          let rec' := workerLoop fetch id anoInicio mesInicio anoFim mesFim rest s2
          ⟨rec'.store, metricaAnoErro ano m1 m2 e id :: rec'.metricas,
            (ano, m1, m2) :: rec'.chamadas, rec'.totalRegistros⟩

/-- ConsultaService._executar_consulta_sequencial: run the per-year loop over
range(ano_inicio, ano_fim + 1), then mark the job concluded and save the
final metric with the accumulated record count. The surrounding try block
only fires on a raise escaping the loop; every operation inside the loop is
total here exactly because the per-year handler already absorbs the only
raising call, so the except branch that would mark the job "erro" is dead
and the concluding branch always runs. -/
def executarConsultaSequencial (fetch : Fetch) (id : String)
    (anoInicio mesInicio anoFim mesFim : Int) (s : Store) : WorkerOut :=
  let w := workerLoop fetch id anoInicio mesInicio anoFim mesFim
    (anosList anoInicio anoFim) s
  { store := finalizarConsulta w.store id
    metricas := w.metricas ++
      [{ endpoint := "/consultar"
         operation := "consulta_assincrona_final"
         anoInicio := anoInicio, anoFim := anoFim
         mesInicio := dictMesNumero mesInicio, mesFim := dictMesNumero mesFim
         numeroRegistros := w.totalRegistros, sucesso := true
         erroDescricao := none, idConsulta := some id }]
    chamadas := w.chamadas
    totalRegistros := w.totalRegistros }

/-- PerformanceTracker.salvar_metrica: the append of one row to the CSV log
under the lock, inside a try block whose except clause only logs. The
writeOk flag abstracts whether the filesystem append raises; the log state
is the list of rows written so far. The result is an Except so that a raise
escaping salvar_metrica would be representable, and the theorem shows it
never happens. -/
def salvarMetrica (writeOk : Bool) (log : List Metrica) (m : Metrica) :
    Except String (List Metrica) :=
  let tentativa : Except String (List Metrica) :=
    if writeOk then Except.ok (log ++ [m])
    else Except.error "Erro ao salvar métrica no CSV"
  match tentativa with
  | Except.ok l => Except.ok l
  | Except.error _ => Except.ok log

/-- One store operation applicable to an existing job record: the five
repository mutators other than creation, with their arguments. -/
inductive RepoOp where
  | atualizar (id msg : String)
  | adicionar (id : String) (ano : Int) (resultados : List Row)
  | erroAno (id : String) (ano : Int) (erro : String)
  | finalizar (id : String)
  | erroConsulta (id erro : String)

/-- Interpretation of one store operation on the store. -/
def applyRepoOp (s : Store) : RepoOp → Store
  | RepoOp.atualizar id msg => atualizarStatusProcessando s id msg
  | RepoOp.adicionar id ano rs => adicionarResultadosAno s id ano rs
  | RepoOp.erroAno id ano e => registrarErroAno s id ano e
  | RepoOp.finalizar id => finalizarConsulta s id
  | RepoOp.erroConsulta id e => registrarErroConsulta s id e

/-- A sequence of store operations applied in order. -/
def applyRepoOps (s : Store) (ops : List RepoOp) : Store :=
  ops.foldl applyRepoOp s

/-- Year-set invariant of a job record created over the range
anoInicio..anoFim: pending and concluded years are disjoint and their union
is the original range. -/
def InvAnos (anoInicio anoFim : Int) (c : Consulta) : Prop :=
  c.anosPendentes ∩ c.anosConcluidos = ∅ ∧
    c.anosPendentes ∪ c.anosConcluidos = Finset.Icc anoInicio anoFim

instance (a b : Int) (c : Consulta) : Decidable (InvAnos a b c) := by
  unfold InvAnos; infer_instance

/-- Modelled from the spec: a well-formed MM/YYYY date string, at the level
of its character list — two digits, a slash, four digits, the two-digit month
naming a calendar month (1..12) and the four-digit year a calendar year
(at least 1). -/
def specWellFormedMMYYYY (cs : List Char) : Bool :=
  match cs with
  | [d1, d2, s, y1, y2, y3, y4] =>
      d1.isDigit && d2.isDigit && s = '/' && y1.isDigit && y2.isDigit &&
        y3.isDigit && y4.isDigit &&
        (1 ≤ digitsToNat [d1, d2] && digitsToNat [d1, d2] ≤ 12 &&
          1 ≤ digitsToNat [y1, y2, y3, y4])
  | _ => false

/-- Modelled from the spec: the (month, year) a well-formed MM/YYYY string
denotes; (0, 0) on junk, never consulted there. -/
def specParseMMYYYY (cs : List Char) : Int × Int :=
  match cs with
  | [d1, d2, _, y1, y2, y3, y4] =>
      ((digitsToNat [d1, d2] : Int), (digitsToNat [y1, y2, y3, y4] : Int))
  | _ => (0, 0)

/-- Modelled from the spec: the start (month, year) is chronologically after
the end (month, year). -/
def specDepois (inicio fim : Int × Int) : Prop :=
  fim.2 < inicio.2 ∨ (inicio.2 = fim.2 ∧ fim.1 < inicio.1)

instance (inicio fim : Int × Int) : Decidable (specDepois inicio fim) := by
  unfold specDepois; infer_instance

/-- Modelled from the spec: the range decomposition rule for a job spanning
years Y1..Y2 with Y1 < Y2 — year Y1 covers months [start_month..12], every
year strictly between covers [1..12], and year Y2 covers [1..end_month],
listed in increasing year order. -/
def specChamadas (anoInicio mesInicio anoFim mesFim : Int) :
    List (Int × Int × Int) :=
  (anoInicio, mesInicio, 12) ::
    ((anosList (anoInicio + 1) (anoFim - 1)).map fun y => (y, 1, 12)) ++
      [(anoFim, 1, mesFim)]

/-- Status and the two year sets of a record, the fields the year-set
claims observe. -/
def resumoConsulta (c : Consulta) : String × Finset Int × Finset Int :=
  (c.status, c.anosPendentes, c.anosConcluidos)

/-- Recognizes the per-year metric records of the worker loop. -/
def ehMetricaAno (m : Metrica) : Bool :=
  m.operation == "consulta_assincrona_ano"

/-- The single metric record the worker loop emits for one year, success or
failure, as a function of the fetch outcome. -/
def metricaDoAno (fetch : Fetch) (id : String) (anoInicio mesInicio anoFim mesFim y : Int) :
    Metrica :=
  let m1 := if y = anoInicio then mesInicio else 1
  let m2 := if y = anoFim then mesFim else 12
  match fetch y (dictMesNumero m1) (dictMesNumero m2) with
  | Except.ok rows => metricaAno y m1 m2 rows.length id
  | Except.error e => metricaAnoErro y m1 m2 e id

/-- The fetch call the worker issues for one year of the range. -/
def chamadaDoAno (anoInicio mesInicio anoFim mesFim y : Int) : Int × Int × Int :=
  (y, if y = anoInicio then mesInicio else 1, if y = anoFim then mesFim else 12)

/-- Concrete row used by the evaluation witnesses. -/
def rowDemo : Row := [("valor", "10")]

/-- Concrete operation sequence used by the evaluation witnesses. -/
def opsDemo : List RepoOp :=
  [RepoOp.atualizar "j" "Processando ano 2019",
   RepoOp.adicionar "j" 2019 [rowDemo],
   RepoOp.erroAno "j" 2020 "falha de rede",
   RepoOp.adicionar "j" 2021 [rowDemo, rowDemo],
   RepoOp.finalizar "j"]

/-- Store after creating a 2019..2021 job and applying opsDemo. -/
def storeDemo : Store := applyRepoOps (iniciarConsulta [] "j" 2019 2021) opsDemo

/-- The job record inside storeDemo. -/
def cDemo : Consulta := (findConsulta storeDemo "j").getD (novaConsulta 0 0)

/-- Store after creating a 2019..2021 job and applying one result operation. -/
def storeDemo1 : Store :=
  applyRepoOp (iniciarConsulta [] "j" 2019 2021) (RepoOp.adicionar "j" 2019 [rowDemo])

/-- The job record inside storeDemo1. -/
def cDemo1 : Consulta := (findConsulta storeDemo1 "j").getD (novaConsulta 0 0)

/-- Concrete fetch oracle for the witnesses: the year 2020 raises, every
other year returns one row. -/
def fetchDemo : Fetch := fun ano _ _ =>
  if ano = 2020 then Except.error "sem dados" else Except.ok [rowDemo]

/-! Helper lemmas about the store as an association list. -/

theorem find_set_self (s : Store) (id : String) (c : Consulta) :
    findConsulta (setConsulta s id c) id = some c := by
  induction s with
  | nil => simp [setConsulta, findConsulta]
  | cons kv rest ih =>
      obtain ⟨k, c0⟩ := kv
      by_cases h : k = id <;> simp [setConsulta, findConsulta, h, ih]

theorem find_update (s : Store) (id id' : String) (f : Consulta → Consulta) :
    findConsulta (updateConsulta s id' f) id =
      if id' = id then (findConsulta s id).map f else findConsulta s id := by
  induction s with
  | nil => by_cases h : id' = id <;> simp [updateConsulta, findConsulta, h]
  | cons kv rest ih =>
      obtain ⟨k, c0⟩ := kv
      by_cases hk : k = id'
      · by_cases h : k = id
        · have hid : id' = id := hk ▸ h
          simp [updateConsulta, findConsulta, hk, h, hid]
        · have hid : ¬ id' = id := fun he => h (hk.trans he)
          simp [updateConsulta, findConsulta, hk, h, hid]
      · by_cases h : k = id
        · have hid : ¬ id' = id := fun he => hk (h.trans he.symm)
          have hk2 : ¬ id = id' := fun he => hk (h.trans he)
          simp [updateConsulta, findConsulta, hk, h, hid, hk2]
        · simp [updateConsulta, findConsulta, hk, h, ih]

theorem find_update_self (s : Store) (id : String) (f : Consulta → Consulta) :
    findConsulta (updateConsulta s id f) id = (findConsulta s id).map f := by
  simp [find_update]

/-- Lifts a record-level preserved property through one in-place update. -/
theorem find_update_preserva (P : Consulta → Prop) (s : Store) (id id' : String)
    (f : Consulta → Consulta) (hf : ∀ c, P c → P (f c))
    (h : ∀ c, findConsulta s id = some c → P c) :
    ∀ c', findConsulta (updateConsulta s id' f) id = some c' → P c' := by
  intro c' hc'
  rw [find_update] at hc'
  by_cases hid : id' = id
  · rw [if_pos hid] at hc'
    cases hfind : findConsulta s id with
    | none => rw [hfind] at hc'; simp at hc'
    | some c =>
        rw [hfind] at hc'
        have hfc : f c = c' := by
          cases hc'
          rfl
        exact hfc ▸ hf c (h c hfind)
  · rw [if_neg hid] at hc'
    exact h c' hc'

/-! Helper lemmas about moving one year between the two year sets. -/

theorem mover_inter (p q : Finset Int) (a : Int) (h : p ∩ q = ∅) :
    (p.erase a) ∩ (insert a q) = ∅ := by
  ext x
  simp only [Finset.mem_inter, Finset.mem_erase, Finset.mem_insert,
    Finset.not_mem_empty, iff_false]
  rintro ⟨⟨hxa, hxp⟩, hx⟩
  rcases hx with rfl | hxq
  · exact hxa rfl
  · have : x ∈ p ∩ q := Finset.mem_inter.mpr ⟨hxp, hxq⟩
    simp [h] at this

theorem mover_union (p q : Finset Int) (a : Int) (ha : a ∈ p) :
    (p.erase a) ∪ (insert a q) = p ∪ q := by
  ext x
  simp only [Finset.mem_union, Finset.mem_erase, Finset.mem_insert]
  constructor
  · rintro (⟨_, hxp⟩ | (rfl | hxq))
    · exact Or.inl hxp
    · exact Or.inl ha
    · exact Or.inr hxq
  · intro hx
    by_cases hxa : x = a
    · exact Or.inr (Or.inl hxa)
    · rcases hx with hxp | hxq
      · exact Or.inl ⟨hxa, hxp⟩
      · exact Or.inr (Or.inr hxq)

theorem invAnos_mover (a b ano : Int) (c : Consulta) (h : InvAnos a b c) :
    InvAnos a b (moverAnoPendente ano c) := by
  obtain ⟨hdisj, huni⟩ := h
  unfold moverAnoPendente
  by_cases hm : ano ∈ c.anosPendentes
  · rw [if_pos hm]
    exact ⟨mover_inter _ _ _ hdisj, (mover_union _ _ _ hm).trans huni⟩
  · rw [if_neg hm]
    exact ⟨hdisj, huni⟩

theorem find_update_rel (R : Consulta → Consulta → Prop)
    (hrefl : ∀ c, R c c) (s : Store) (id id' : String) (f : Consulta → Consulta)
    (hf : ∀ c, R c (f c)) (c c' : Consulta)
    (hc : findConsulta s id = some c)
    (hc' : findConsulta (updateConsulta s id' f) id = some c') : R c c' := by
  rw [find_update] at hc'
  by_cases hid : id' = id
  · rw [if_pos hid, hc] at hc'
    have hfc : f c = c' := by cases hc'; rfl
    exact hfc ▸ hf c
  · rw [if_neg hid, hc] at hc'
    have hcc : c = c' := by cases hc'; rfl
    exact hcc ▸ hrefl c

/-- Lifts record-level preservation of a property by each of the five
mutating bodies to preservation by an arbitrary store operation. -/
theorem repoOp_preserva (P : Consulta → Prop)
    (h1 : ∀ msg c, P c → P { c with mensagem := msg })
    (h2 : ∀ ano rs c, P c → P (adicionarResultadosAnoRec ano rs c))
    (h3 : ∀ ano e c, P c → P (registrarErroAnoRec ano e c))
    (h4 : ∀ c, P c → P (finalizarConsultaRec c))
    (h5 : ∀ e c, P c → P { c with status := "erro", mensagem := "Erro: " ++ e })
    (s : Store) (id : String) (op : RepoOp)
    (h : ∀ c, findConsulta s id = some c → P c) :
    ∀ c', findConsulta (applyRepoOp s op) id = some c' → P c' := by
  cases op with
  | atualizar id' msg => exact find_update_preserva P s id id' _ (h1 msg) h
  | adicionar id' ano rs => exact find_update_preserva P s id id' _ (h2 ano rs) h
  | erroAno id' ano e => exact find_update_preserva P s id id' _ (h3 ano e) h
  | finalizar id' => exact find_update_preserva P s id id' _ h4 h
  | erroConsulta id' e => exact find_update_preserva P s id id' _ (h5 e) h

/-- Lifts record-level preservation by each mutating body through any
sequence of store operations. -/
theorem repoOps_preserva (P : Consulta → Prop)
    (h1 : ∀ msg c, P c → P { c with mensagem := msg })
    (h2 : ∀ ano rs c, P c → P (adicionarResultadosAnoRec ano rs c))
    (h3 : ∀ ano e c, P c → P (registrarErroAnoRec ano e c))
    (h4 : ∀ c, P c → P (finalizarConsultaRec c))
    (h5 : ∀ e c, P c → P { c with status := "erro", mensagem := "Erro: " ++ e })
    (ops : List RepoOp) :
    ∀ s id, (∀ c, findConsulta s id = some c → P c) →
      ∀ c', findConsulta (applyRepoOps s ops) id = some c' → P c' := by
  induction ops with
  | nil => intro s id h c' hc'; exact h c' hc'
  | cons op rest ih =>
      intro s id h c' hc'
      exact ih (applyRepoOp s op) id
        (repoOp_preserva P h1 h2 h3 h4 h5 s id op h) c' hc'

/-! Record-level preservation of the year-set invariant. -/

theorem invAnos_adicionarRec (a b ano : Int) (rs : List Row) (c : Consulta)
    (h : InvAnos a b c) : InvAnos a b (adicionarResultadosAnoRec ano rs c) := by
  unfold adicionarResultadosAnoRec
  by_cases hrs : rs = []
  · simp only [if_pos hrs]
    exact invAnos_mover a b ano c h
  · simp only [if_neg hrs]
    exact invAnos_mover a b ano _ h

theorem invAnos_erroRec (a b ano : Int) (e : String) (c : Consulta)
    (h : InvAnos a b c) : InvAnos a b (registrarErroAnoRec ano e c) :=
  invAnos_mover a b ano _ h

theorem invAnos_nova (a b : Int) : InvAnos a b (novaConsulta a b) := by
  constructor
  · simp [novaConsulta]
  · simp [novaConsulta]

/-! Record-level one-way movement of the year sets. -/

theorem mover_mono (ano : Int) (c : Consulta) :
    c.anosConcluidos ⊆ (moverAnoPendente ano c).anosConcluidos ∧
      (moverAnoPendente ano c).anosPendentes ⊆ c.anosPendentes := by
  unfold moverAnoPendente
  by_cases hm : ano ∈ c.anosPendentes
  · rw [if_pos hm]
    exact ⟨Finset.subset_insert _ _, Finset.erase_subset ano c.anosPendentes⟩
  · rw [if_neg hm]
    exact ⟨subset_rfl, subset_rfl⟩

theorem adicionarRec_mono (ano : Int) (rs : List Row) (c : Consulta) :
    c.anosConcluidos ⊆ (adicionarResultadosAnoRec ano rs c).anosConcluidos ∧
      (adicionarResultadosAnoRec ano rs c).anosPendentes ⊆ c.anosPendentes := by
  unfold adicionarResultadosAnoRec
  by_cases hrs : rs = []
  · simp only [if_pos hrs]
    exact mover_mono ano c
  · simp only [if_neg hrs]
    exact mover_mono ano
      { c with dados := c.dados ++ rs, totalRegistros := c.totalRegistros + rs.length }

theorem erroRec_mono (ano : Int) (e : String) (c : Consulta) :
    c.anosConcluidos ⊆ (registrarErroAnoRec ano e c).anosConcluidos ∧
      (registrarErroAnoRec ano e c).anosPendentes ⊆ c.anosPendentes :=
  mover_mono ano
    { c with
      mensagem := c.mensagem ++ " Erro no ano " ++ toString ano ++ ": " ++ e }

/-! Lemmas about the year range list range(ano_inicio, ano_fim + 1). -/

theorem mem_anosList (a b y : Int) : y ∈ anosList a b ↔ a ≤ y ∧ y ≤ b := by
  simp only [anosList, List.mem_map, List.mem_range]
  constructor
  · rintro ⟨i, hi, rfl⟩
    omega
  · intro hy
    exact ⟨(y - a).toNat, by omega, by omega⟩

theorem nodup_anosList (a b : Int) : (anosList a b).Nodup := by
  refine List.Nodup.map ?_ (List.nodup_range _)
  intro i j hij
  simp only [] at hij
  omega

theorem toFinset_anosList (a b : Int) : (anosList a b).toFinset = Finset.Icc a b := by
  ext y
  simp [mem_anosList, Finset.mem_Icc]

theorem anosList_cons (a b : Int) (h : a ≤ b) :
    anosList a b = a :: anosList (a + 1) b := by
  unfold anosList
  have hn : (b + 1 - a).toNat = (b + 1 - (a + 1)).toNat + 1 := by omega
  rw [hn, List.range_succ_eq_map, List.map_cons, List.map_map]
  refine congrArg₂ _ (by simp) ?_
  apply List.map_congr_left
  intro i _
  show a + (↑(Nat.succ i) : Int) = a + 1 + ↑i
  push_cast
  ring

theorem anosList_concat (a b : Int) (h : a ≤ b) :
    anosList a b = anosList a (b - 1) ++ [b] := by
  unfold anosList
  have hn : (b + 1 - a).toNat = (b - 1 + 1 - a).toNat + 1 := by omega
  rw [hn, List.range_succ, List.map_append]
  refine congrArg₂ _ rfl ?_
  simp only [List.map_cons, List.map_nil]
  have : a + ((b - 1 + 1 - a).toNat : Int) = b := by omega
  rw [this]

/-! Field-level effect of the two per-year repository bodies when the year is
still pending. -/

theorem adicionarRec_sets (ano : Int) (rs : List Row) (c : Consulta)
    (h : ano ∈ c.anosPendentes) :
    (adicionarResultadosAnoRec ano rs c).anosPendentes = c.anosPendentes.erase ano ∧
      (adicionarResultadosAnoRec ano rs c).anosConcluidos = insert ano c.anosConcluidos ∧
      (adicionarResultadosAnoRec ano rs c).status = c.status := by
  unfold adicionarResultadosAnoRec moverAnoPendente
  by_cases hrs : rs = [] <;> simp [hrs, h]

theorem erroRec_sets (ano : Int) (e : String) (c : Consulta)
    (h : ano ∈ c.anosPendentes) :
    (registrarErroAnoRec ano e c).anosPendentes = c.anosPendentes.erase ano ∧
      (registrarErroAnoRec ano e c).anosConcluidos = insert ano c.anosConcluidos ∧
      (registrarErroAnoRec ano e c).status = c.status := by
  unfold registrarErroAnoRec moverAnoPendente
  simp [h]

theorem erase_sdiff (p r : Finset Int) (y : Int) :
    (p.erase y) \ r = p \ insert y r := by
  ext x
  simp only [Finset.mem_sdiff, Finset.mem_erase, Finset.mem_insert]
  tauto

theorem insert_union (q r : Finset Int) (y : Int) :
    (insert y q) ∪ r = q ∪ insert y r := by
  ext x
  simp only [Finset.mem_union, Finset.mem_insert]
  tauto

/-- How one pass of the worker loop over a duplicate-free list of still
pending years transforms the job record: every listed year moves from the
pending set to the concluded set and the status is untouched. -/
theorem workerLoop_store (fetch : Fetch) (id : String) (a m1 b m2 : Int) :
    ∀ (anos : List Int) (s : Store) (c : Consulta),
      findConsulta s id = some c → anos.Nodup →
      (∀ y ∈ anos, y ∈ c.anosPendentes) →
      ∃ c', findConsulta (workerLoop fetch id a m1 b m2 anos s).store id = some c' ∧
        c'.status = c.status ∧
        c'.anosPendentes = c.anosPendentes \ anos.toFinset ∧
        c'.anosConcluidos = c.anosConcluidos ∪ anos.toFinset := by
  intro anos
  induction anos with
  | nil =>
      intro s c hc _ _
      exact ⟨c, hc, rfl, by simp, by simp⟩
  | cons y rest ih =>
      intro s c hc hnd hpend
      have hy : y ∈ c.anosPendentes := hpend y (List.mem_cons_self y rest)
      have hnd' : rest.Nodup := (List.nodup_cons.mp hnd).2
      have hyrest : y ∉ rest := (List.nodup_cons.mp hnd).1
      rw [workerLoop]
      set cm : Consulta := { c with
        mensagem := "Processando ano " ++ toString y ++ " - " ++
          dictMesNumero (if y = a then m1 else 1) ++ " a " ++
          dictMesNumero (if y = b then m2 else 12) } with hcm
      have hc1 : findConsulta
          (atualizarStatusProcessando s id
            ("Processando ano " ++ toString y ++ " - " ++
              dictMesNumero (if y = a then m1 else 1) ++ " a " ++
              dictMesNumero (if y = b then m2 else 12))) id = some cm := by
        rw [atualizarStatusProcessando, find_update_self, hc]
        rfl
      cases hf : fetch y (dictMesNumero (if y = a then m1 else 1))
          (dictMesNumero (if y = b then m2 else 12)) with
      | ok rows =>
          simp only [hf]
          have hc2 : findConsulta
              (adicionarResultadosAno
                (atualizarStatusProcessando s id
                  ("Processando ano " ++ toString y ++ " - " ++
                    dictMesNumero (if y = a then m1 else 1) ++ " a " ++
                    dictMesNumero (if y = b then m2 else 12))) id y rows) id =
              some (adicionarResultadosAnoRec y rows cm) := by
            rw [adicionarResultadosAno, find_update_self, hc1]
            rfl
          have hsets := adicionarRec_sets y rows cm hy
          obtain ⟨c', hc', hst, hp, hq⟩ := ih _ _ hc2 hnd' (by
            intro y' hy'
            rw [hsets.1]
            exact Finset.mem_erase.mpr ⟨fun he => hyrest (he ▸ hy'), hpend y' (List.mem_cons_of_mem y hy')⟩)
          refine ⟨c', hc', hst.trans hsets.2.2, ?_, ?_⟩
          · rw [hp, hsets.1]
            show (c.anosPendentes.erase y) \ rest.toFinset = _
            rw [erase_sdiff, List.toFinset_cons]
          · rw [hq, hsets.2.1]
            show (insert y c.anosConcluidos) ∪ rest.toFinset = _
            rw [insert_union, List.toFinset_cons]
      | error e =>
          simp only [hf]
          have hc2 : findConsulta
              (registrarErroAno
                (atualizarStatusProcessando s id
                  ("Processando ano " ++ toString y ++ " - " ++
                    dictMesNumero (if y = a then m1 else 1) ++ " a " ++
                    dictMesNumero (if y = b then m2 else 12))) id y e) id =
              some (registrarErroAnoRec y e cm) := by
            rw [registrarErroAno, find_update_self, hc1]
            rfl
          have hsets := erroRec_sets y e cm hy
          obtain ⟨c', hc', hst, hp, hq⟩ := ih _ _ hc2 hnd' (by
            intro y' hy'
            rw [hsets.1]
            exact Finset.mem_erase.mpr ⟨fun he => hyrest (he ▸ hy'), hpend y' (List.mem_cons_of_mem y hy')⟩)
          refine ⟨c', hc', hst.trans hsets.2.2, ?_, ?_⟩
          · rw [hp, hsets.1]
            show (c.anosPendentes.erase y) \ rest.toFinset = _
            rw [erase_sdiff, List.toFinset_cons]
          · rw [hq, hsets.2.1]
            show (insert y c.anosConcluidos) ∪ rest.toFinset = _
            rw [insert_union, List.toFinset_cons]

/-- The worker loop emits exactly one metric record per listed year, in list
order, independent of the store. -/
theorem workerLoop_metricas (fetch : Fetch) (id : String) (a m1 b m2 : Int) :
    ∀ (anos : List Int) (s : Store),
      (workerLoop fetch id a m1 b m2 anos s).metricas =
        anos.map (metricaDoAno fetch id a m1 b m2) := by
  intro anos
  induction anos with
  | nil => intro s; rfl
  | cons y rest ih =>
      intro s
      rw [workerLoop, List.map_cons]
      cases hf : fetch y (dictMesNumero (if y = a then m1 else 1))
          (dictMesNumero (if y = b then m2 else 12)) with
      | ok rows =>
          simp only [hf, ih]
          refine congrArg₂ _ ?_ rfl
          simp only [metricaDoAno, hf]
      | error e =>
          simp only [hf, ih]
          refine congrArg₂ _ ?_ rfl
          simp only [metricaDoAno, hf]

/-- The worker loop issues exactly one fetch call per listed year, in list
order, independent of the store. -/
theorem workerLoop_chamadas (fetch : Fetch) (id : String) (a m1 b m2 : Int) :
    ∀ (anos : List Int) (s : Store),
      (workerLoop fetch id a m1 b m2 anos s).chamadas =
        anos.map (chamadaDoAno a m1 b m2) := by
  intro anos
  induction anos with
  | nil => intro s; rfl
  | cons y rest ih =>
      intro s
      rw [workerLoop, List.map_cons]
      cases hf : fetch y (dictMesNumero (if y = a then m1 else 1))
          (dictMesNumero (if y = b then m2 else 12)) with
      | ok rows => simp only [hf, ih]; rfl
      | error e => simp only [hf, ih]; rfl

/-- C1: for every job created over the year range a..b, the pending and
concluded year sets of its record are disjoint and their union is exactly the
original range a..b, right after creation and after any sequence of further
store operations (progress update, per-year result, per-year error,
completion, failure); moreover every single store operation moves years one
way only — the concluded set never loses a year and the pending set never
gains one — so each year moves from pending to concluded exactly once,
whether its fetch succeeded or failed. -/
theorem C1_particao_anos :
    (∀ (ops : List RepoOp) (s : Store) (id : String) (a b : Int) (c : Consulta),
        findConsulta (applyRepoOps (iniciarConsulta s id a b) ops) id = some c →
        InvAnos a b c) ∧
    (∀ (s : Store) (id : String) (op : RepoOp) (c c' : Consulta),
        findConsulta s id = some c →
        findConsulta (applyRepoOp s op) id = some c' →
        c.anosConcluidos ⊆ c'.anosConcluidos ∧ c'.anosPendentes ⊆ c.anosPendentes) := by
  constructor
  · intro ops s id a b c hc
    refine repoOps_preserva (InvAnos a b) ?_ ?_ ?_ ?_ ?_ ops
      (iniciarConsulta s id a b) id ?_ c hc
    · intro msg c0 h; exact h
    · intro ano rs c0 h; exact invAnos_adicionarRec a b ano rs c0 h
    · intro ano e c0 h; exact invAnos_erroRec a b ano e c0 h
    · intro c0 h; exact h
    · intro e c0 h; exact h
    · intro c0 hc0
      rw [iniciarConsulta, find_set_self] at hc0
      have h0 : novaConsulta a b = c0 := by cases hc0; rfl
      exact h0 ▸ invAnos_nova a b
  · intro s id op c c' hc hc'
    have hR : ∀ c0 : Consulta,
        c0.anosConcluidos ⊆ c0.anosConcluidos ∧ c0.anosPendentes ⊆ c0.anosPendentes :=
      fun c0 => ⟨subset_rfl, subset_rfl⟩
    cases op with
    | atualizar id' msg =>
        exact find_update_rel
          (fun c0 c1 => c0.anosConcluidos ⊆ c1.anosConcluidos ∧
            c1.anosPendentes ⊆ c0.anosPendentes) hR s id id'
          (fun c0 => { c0 with mensagem := msg }) hR c c' hc hc'
    | adicionar id' ano rs =>
        exact find_update_rel
          (fun c0 c1 => c0.anosConcluidos ⊆ c1.anosConcluidos ∧
            c1.anosPendentes ⊆ c0.anosPendentes) hR s id id' _
          (fun c0 => adicionarRec_mono ano rs c0) c c' hc hc'
    | erroAno id' ano e =>
        exact find_update_rel
          (fun c0 c1 => c0.anosConcluidos ⊆ c1.anosConcluidos ∧
            c1.anosPendentes ⊆ c0.anosPendentes) hR s id id' _
          (fun c0 => erroRec_mono ano e c0) c c' hc hc'
    | finalizar id' =>
        exact find_update_rel
          (fun c0 c1 => c0.anosConcluidos ⊆ c1.anosConcluidos ∧
            c1.anosPendentes ⊆ c0.anosPendentes) hR s id id'
          finalizarConsultaRec hR c c' hc hc'
    | erroConsulta id' e =>
        exact find_update_rel
          (fun c0 c1 => c0.anosConcluidos ⊆ c1.anosConcluidos ∧
            c1.anosPendentes ⊆ c0.anosPendentes) hR s id id'
          (fun c0 => { c0 with status := "erro", mensagem := "Erro: " ++ e })
          hR c c' hc hc'

theorem C1_particao_anos_witness :
    InvAnos 2019 2021 cDemo ∧
      (novaConsulta 2019 2021).anosConcluidos ⊆ cDemo1.anosConcluidos ∧
      cDemo1.anosPendentes ⊆ (novaConsulta 2019 2021).anosPendentes :=
  ⟨C1_particao_anos.1 opsDemo [] "j" 2019 2021 cDemo (by decide),
   (C1_particao_anos.2 (iniciarConsulta [] "j" 2019 2021) "j"
      (RepoOp.adicionar "j" 2019 [rowDemo]) (novaConsulta 2019 2021) cDemo1
      (by decide) (by decide)).1,
   (C1_particao_anos.2 (iniciarConsulta [] "j" 2019 2021) "j"
      (RepoOp.adicionar "j" 2019 [rowDemo]) (novaConsulta 2019 2021) cDemo1
      (by decide) (by decide)).2⟩

/-! Record-level facts about totals and collected data. -/

theorem mover_total_dados (ano : Int) (c : Consulta) :
    (moverAnoPendente ano c).totalRegistros = c.totalRegistros ∧
      (moverAnoPendente ano c).dados = c.dados := by
  unfold moverAnoPendente
  split
  · exact ⟨rfl, rfl⟩
  · exact ⟨rfl, rfl⟩

theorem total_adicionarRec (ano : Int) (rs : List Row) (c : Consulta)
    (h : c.totalRegistros = c.dados.length) :
    (adicionarResultadosAnoRec ano rs c).totalRegistros =
      (adicionarResultadosAnoRec ano rs c).dados.length := by
  unfold adicionarResultadosAnoRec
  by_cases hrs : rs = []
  · simp only [if_pos hrs]
    have hm := mover_total_dados ano c
    show (moverAnoPendente ano c).totalRegistros =
      (moverAnoPendente ano c).dados.length
    rw [hm.1, hm.2, h]
  · simp only [if_neg hrs]
    have hm := mover_total_dados ano
      { c with dados := c.dados ++ rs, totalRegistros := c.totalRegistros + rs.length }
    show (moverAnoPendente ano _).totalRegistros =
      (moverAnoPendente ano _).dados.length
    rw [hm.1, hm.2]
    show c.totalRegistros + rs.length = (c.dados ++ rs).length
    rw [List.length_append, h]

theorem total_erroRec (ano : Int) (e : String) (c : Consulta)
    (h : c.totalRegistros = c.dados.length) :
    (registrarErroAnoRec ano e c).totalRegistros =
      (registrarErroAnoRec ano e c).dados.length := by
  unfold registrarErroAnoRec
  have hm := mover_total_dados ano
    { c with mensagem := c.mensagem ++ " Erro no ano " ++ toString ano ++ ": " ++ e }
  rw [hm.1, hm.2]
  exact h

theorem total_mono_adicionarRec (ano : Int) (rs : List Row) (c : Consulta) :
    c.totalRegistros ≤ (adicionarResultadosAnoRec ano rs c).totalRegistros := by
  unfold adicionarResultadosAnoRec
  by_cases hrs : rs = []
  · simp only [if_pos hrs]
    have hm := mover_total_dados ano c
    show c.totalRegistros ≤ (moverAnoPendente ano c).totalRegistros
    rw [hm.1]
  · simp only [if_neg hrs]
    have hm := mover_total_dados ano
      { c with dados := c.dados ++ rs, totalRegistros := c.totalRegistros + rs.length }
    show c.totalRegistros ≤ (moverAnoPendente ano _).totalRegistros
    rw [hm.1]
    show c.totalRegistros ≤ c.totalRegistros + rs.length
    exact Nat.le_add_right _ _

theorem total_mono_erroRec (ano : Int) (e : String) (c : Consulta) :
    c.totalRegistros ≤ (registrarErroAnoRec ano e c).totalRegistros := by
  unfold registrarErroAnoRec
  have hm := mover_total_dados ano
    { c with mensagem := c.mensagem ++ " Erro no ano " ++ toString ano ++ ": " ++ e }
  rw [hm.1]

/-- C6: for every job, total_registros equals the length of the collected
data list after creation and after any sequence of store operations, and no
single store operation ever decreases total_registros. -/
theorem C6_total_registros :
    (∀ (ops : List RepoOp) (s : Store) (id : String) (a b : Int) (c : Consulta),
        findConsulta (applyRepoOps (iniciarConsulta s id a b) ops) id = some c →
        c.totalRegistros = c.dados.length) ∧
    (∀ (s : Store) (id : String) (op : RepoOp) (c c' : Consulta),
        findConsulta s id = some c →
        findConsulta (applyRepoOp s op) id = some c' →
        c.totalRegistros ≤ c'.totalRegistros) := by
  constructor
  · intro ops s id a b c hc
    refine repoOps_preserva (fun c0 => c0.totalRegistros = c0.dados.length)
      ?_ ?_ ?_ ?_ ?_ ops (iniciarConsulta s id a b) id ?_ c hc
    · intro msg c0 h; exact h
    · intro ano rs c0 h; exact total_adicionarRec ano rs c0 h
    · intro ano e c0 h; exact total_erroRec ano e c0 h
    · intro c0 h; exact h
    · intro e c0 h; exact h
    · intro c0 hc0
      rw [iniciarConsulta, find_set_self] at hc0
      have h0 : novaConsulta a b = c0 := by cases hc0; rfl
      exact h0 ▸ rfl
  · intro s id op c c' hc hc'
    have hR : ∀ c0 : Consulta, c0.totalRegistros ≤ c0.totalRegistros :=
      fun c0 => le_refl _
    cases op with
    | atualizar id' msg =>
        exact find_update_rel
          (fun c0 c1 => c0.totalRegistros ≤ c1.totalRegistros) hR s id id'
          (fun c0 => { c0 with mensagem := msg }) hR c c' hc hc'
    | adicionar id' ano rs =>
        exact find_update_rel
          (fun c0 c1 => c0.totalRegistros ≤ c1.totalRegistros) hR s id id' _
          (fun c0 => total_mono_adicionarRec ano rs c0) c c' hc hc'
    | erroAno id' ano e =>
        exact find_update_rel
          (fun c0 c1 => c0.totalRegistros ≤ c1.totalRegistros) hR s id id' _
          (fun c0 => total_mono_erroRec ano e c0) c c' hc hc'
    | finalizar id' =>
        exact find_update_rel
          (fun c0 c1 => c0.totalRegistros ≤ c1.totalRegistros) hR s id id'
          finalizarConsultaRec hR c c' hc hc'
    | erroConsulta id' e =>
        exact find_update_rel
          (fun c0 c1 => c0.totalRegistros ≤ c1.totalRegistros) hR s id id'
          (fun c0 => { c0 with status := "erro", mensagem := "Erro: " ++ e })
          hR c c' hc hc'

theorem C6_total_registros_witness :
    cDemo.totalRegistros = cDemo.dados.length ∧
      (novaConsulta 2019 2021).totalRegistros ≤ cDemo1.totalRegistros :=
  ⟨C6_total_registros.1 opsDemo [] "j" 2019 2021 cDemo (by decide),
   C6_total_registros.2 (iniciarConsulta [] "j" 2019 2021) "j"
     (RepoOp.adicionar "j" 2019 [rowDemo]) (novaConsulta 2019 2021) cDemo1
     (by decide) (by decide)⟩

/-- C2: for every multi-year job, the worker absorbs per-year fetch failures:
whatever the fetch oracle does — including raising for any subset of the
years — the job record ends with status "concluido" (never "erro"), with an
empty pending set and the concluded set equal to the whole requested range;
and for every year whose fetch raised, the per-year failure metric carrying
that error description was saved. The worker itself is a total function, so
no per-year failure propagates out of it. -/
theorem C2_falha_anual_contida :
    (∀ (fetch : Fetch) (s : Store) (id : String) (a m1 b m2 : Int), a < b →
        (findConsulta
            (executarConsultaSequencial fetch id a m1 b m2
              (iniciarConsulta s id a b)).store id).map resumoConsulta =
          some ("concluido", ∅, Finset.Icc a b)) ∧
    (∀ (fetch : Fetch) (s : Store) (id : String) (a m1 b m2 y : Int) (e : String),
        a < b → a ≤ y → y ≤ b →
        fetch y (dictMesNumero (if y = a then m1 else 1))
            (dictMesNumero (if y = b then m2 else 12)) = Except.error e →
        metricaAnoErro y (if y = a then m1 else 1) (if y = b then m2 else 12) e id ∈
          (executarConsultaSequencial fetch id a m1 b m2
            (iniciarConsulta s id a b)).metricas) := by
  constructor
  · intro fetch s id a m1 b m2 hab
    have hstart : findConsulta (iniciarConsulta s id a b) id = some (novaConsulta a b) := by
      rw [iniciarConsulta, find_set_self]
    obtain ⟨c', hc', hst, hp, hq⟩ :=
      workerLoop_store fetch id a m1 b m2 (anosList a b)
        (iniciarConsulta s id a b) (novaConsulta a b) hstart (nodup_anosList a b)
        (by
          intro y hy
          show y ∈ Finset.Icc a b
          rw [Finset.mem_Icc]
          exact (mem_anosList a b y).mp hy)
    have hpend : c'.anosPendentes = ∅ := by
      rw [hp, toFinset_anosList]
      show Finset.Icc a b \ Finset.Icc a b = ∅
      exact Finset.sdiff_self _
    have hconc : c'.anosConcluidos = Finset.Icc a b := by
      rw [hq, toFinset_anosList]
      show (∅ : Finset Int) ∪ Finset.Icc a b = Finset.Icc a b
      exact Finset.empty_union _
    have hfin : findConsulta
        (finalizarConsulta
          (workerLoop fetch id a m1 b m2 (anosList a b)
            (iniciarConsulta s id a b)).store id) id =
        some (finalizarConsultaRec c') := by
      rw [finalizarConsulta, find_update_self, hc']
      rfl
    show (findConsulta
        (finalizarConsulta
          (workerLoop fetch id a m1 b m2 (anosList a b)
            (iniciarConsulta s id a b)).store id) id).map resumoConsulta =
      some ("concluido", ∅, Finset.Icc a b)
    rw [hfin]
    show some ("concluido", c'.anosPendentes, c'.anosConcluidos) =
      some ("concluido", ∅, Finset.Icc a b)
    rw [hpend, hconc]
  · intro fetch s id a m1 b m2 y e hab hay hyb hf
    show _ ∈ (workerLoop fetch id a m1 b m2 (anosList a b)
        (iniciarConsulta s id a b)).metricas ++ _
    rw [workerLoop_metricas]
    refine List.mem_append_left _ ?_
    have hy : y ∈ anosList a b := (mem_anosList a b y).mpr ⟨hay, hyb⟩
    have hval : metricaDoAno fetch id a m1 b m2 y =
        metricaAnoErro y (if y = a then m1 else 1) (if y = b then m2 else 12) e id := by
      simp only [metricaDoAno, hf]
    exact hval ▸ List.mem_map_of_mem (metricaDoAno fetch id a m1 b m2) hy

theorem C2_falha_anual_contida_witness :
    (findConsulta
        (executarConsultaSequencial fetchDemo "j" 2019 3 2021 5
          (iniciarConsulta [] "j" 2019 2021)).store "j").map resumoConsulta =
      some ("concluido", ∅, Finset.Icc 2019 2021) ∧
    metricaAnoErro 2020 1 12 "sem dados" "j" ∈
      (executarConsultaSequencial fetchDemo "j" 2019 3 2021 5
        (iniciarConsulta [] "j" 2019 2021)).metricas :=
  ⟨C2_falha_anual_contida.1 fetchDemo [] "j" 2019 3 2021 5 (by decide),
   C2_falha_anual_contida.2 fetchDemo [] "j" 2019 3 2021 5 2020 "sem dados"
     (by decide) (by decide) (by decide) (by decide)⟩

/-- C4: for every job spanning years a..b with a < b, the worker issues
exactly the fetch calls prescribed by the range decomposition rule — months
start_month..12 for the first year, 1..12 for every year strictly between,
and 1..end_month for the last year — in increasing year order. -/
theorem C4_decomposicao_intervalo (fetch : Fetch) (id : String)
    (a m1 b m2 : Int) (s : Store) (hab : a < b) :
    (executarConsultaSequencial fetch id a m1 b m2 s).chamadas =
      specChamadas a m1 b m2 := by
  unfold executarConsultaSequencial
  simp only []
  rw [workerLoop_chamadas]
  rw [anosList_cons a b (le_of_lt hab), anosList_concat (a + 1) b (by omega)]
  rw [List.map_cons, List.map_append]
  unfold specChamadas
  refine congrArg₂ _ ?_ (congrArg₂ _ ?_ ?_)
  · unfold chamadaDoAno
    have hne : ¬ a = b := by omega
    simp [hne]
  · apply List.map_congr_left
    intro y hy
    have hy' := (mem_anosList (a + 1) (b - 1) y).mp hy
    unfold chamadaDoAno
    have h1 : ¬ y = a := by omega
    have h2 : ¬ y = b := by omega
    simp [h1, h2]
  · unfold chamadaDoAno
    have hne : ¬ b = a := by omega
    simp [hne]

theorem C4_decomposicao_intervalo_witness :
    (executarConsultaSequencial fetchDemo "j" 2019 3 2021 5
        (iniciarConsulta [] "j" 2019 2021)).chamadas =
      specChamadas 2019 3 2021 5 :=
  C4_decomposicao_intervalo fetchDemo "j" 2019 3 2021 5
    (iniciarConsulta [] "j" 2019 2021) (by decide)

/-- Every per-year metric carries the per-year operation tag and names its
year, so filtering the loop metrics by tag and reading off the years gives
back the year list. -/
theorem filtra_metricas_ano (fetch : Fetch) (id : String) (a m1 b m2 : Int)
    (anos : List Int) :
    (((anos.map (metricaDoAno fetch id a m1 b m2)).filter ehMetricaAno).map
        Metrica.anoInicio) = anos := by
  induction anos with
  | nil => rfl
  | cons y rest ih =>
      rw [List.map_cons]
      have hpass : ehMetricaAno (metricaDoAno fetch id a m1 b m2 y) = true := by
        simp only [ehMetricaAno, metricaDoAno]
        cases hfy : fetch y (dictMesNumero (if y = a then m1 else 1))
            (dictMesNumero (if y = b then m2 else 12)) <;> simp [hfy] <;> rfl
      rw [List.filter_cons_of_pos hpass, List.map_cons, ih]
      refine congrArg₂ _ ?_ rfl
      simp only [metricaDoAno]
      cases hfy : fetch y (dictMesNumero (if y = a then m1 else 1))
          (dictMesNumero (if y = b then m2 else 12)) <;> simp [hfy] <;> rfl

/-- C7: every submit call that passes validation saves exactly one metric
record — tagged consulta_sincrona on the synchronous single-year path
(success or failure) and consulta_assincrona_inicio on the asynchronous
job-setup path — and the worker loop saves exactly one per-year metric per
attempted year, in year order, recognizable by its consulta_assincrona_ano
operation tag. -/
theorem C7_metricas_por_evento :
    (∀ (fetch : Fetch) (idNovo d1 d2 : String) (s : Store) (m1 a1 m2 a2 : Int),
        validarParametros d1 d2 = Except.ok (m1, a1, m2, a2) →
        (processarConsulta fetch idNovo d1 d2 s).metricas.map Metrica.operation =
          [if a1 = a2 then "consulta_sincrona" else "consulta_assincrona_inicio"]) ∧
    (∀ (fetch : Fetch) (id : String) (a m1 b m2 : Int) (s : Store),
        (((executarConsultaSequencial fetch id a m1 b m2 s).metricas.filter
            ehMetricaAno).map Metrica.anoInicio) = anosList a b) := by
  constructor
  · intro fetch idNovo d1 d2 s m1 a1 m2 a2 hval
    unfold processarConsulta
    rw [hval]
    simp only []
    by_cases ha : a1 = a2
    · rw [if_neg (by omega : ¬ a1 ≠ a2), if_pos ha]
      cases hf : fetch a1 (dictMesNumero m1) (dictMesNumero m2) <;> simp [hf]
    · rw [if_pos ha, if_neg ha]
      rfl
  · intro fetch id a m1 b m2 s
    unfold executarConsultaSequencial
    simp only []
    rw [workerLoop_metricas, List.filter_append]
    have hfin : ehMetricaAno
        { endpoint := "/consultar"
          operation := "consulta_assincrona_final"
          anoInicio := a, anoFim := b
          mesInicio := dictMesNumero m1, mesFim := dictMesNumero m2
          numeroRegistros :=
            (workerLoop fetch id a m1 b m2 (anosList a b) s).totalRegistros
          sucesso := true
          erroDescricao := none, idConsulta := some id } = false := by
      show (("consulta_assincrona_final" : String) == "consulta_assincrona_ano") = false
      rfl
    rw [List.filter_cons_of_neg (by rw [hfin]; exact Bool.false_ne_true),
      List.filter_nil, List.append_nil]
    exact filtra_metricas_ano fetch id a m1 b m2 (anosList a b)

theorem C7_metricas_por_evento_witness :
    (processarConsulta fetchDemo "id-1" "01/2019" "12/2021" []).metricas.map
        Metrica.operation = ["consulta_assincrona_inicio"] ∧
    (processarConsulta fetchDemo "id-2" "03/2022" "05/2022" []).metricas.map
        Metrica.operation = ["consulta_sincrona"] ∧
    (((executarConsultaSequencial fetchDemo "j" 2019 3 2021 5
        (iniciarConsulta [] "j" 2019 2021)).metricas.filter ehMetricaAno).map
        Metrica.anoInicio) = anosList 2019 2021 :=
  ⟨C7_metricas_por_evento.1 fetchDemo "id-1" "01/2019" "12/2021" [] 1 2019 12 2021
      (by decide),
   C7_metricas_por_evento.1 fetchDemo "id-2" "03/2022" "05/2022" [] 3 2022 5 2022
      (by decide),
   C7_metricas_por_evento.2 fetchDemo "j" 2019 3 2021 5
      (iniciarConsulta [] "j" 2019 2021)⟩

/-- C5: for every valid date range with equal start and end year, submit
never schedules a background worker, never touches the job store, and — for
whatever row list the inline fetch returns — answers with exactly those rows
and a count equal to their number. -/
theorem C5_mesmo_ano_sincrono :
    (∀ (fetch : Fetch) (idNovo d1 d2 : String) (s : Store) (m1 a1 m2 a2 : Int),
        validarParametros d1 d2 = Except.ok (m1, a1, m2, a2) → a1 = a2 →
        (processarConsulta fetch idNovo d1 d2 s).worker = none ∧
          (processarConsulta fetch idNovo d1 d2 s).store = s) ∧
    (∀ (fetch : Fetch) (idNovo d1 d2 : String) (s : Store) (m1 a1 m2 a2 : Int)
        (rows : List Row),
        validarParametros d1 d2 = Except.ok (m1, a1, m2, a2) → a1 = a2 →
        fetch a1 (dictMesNumero m1) (dictMesNumero m2) = Except.ok rows →
        (processarConsulta fetch idNovo d1 d2 s).resultado =
          Except.ok (SubmitResp.dados rows rows.length)) := by
  constructor
  · intro fetch idNovo d1 d2 s m1 a1 m2 a2 hval ha
    unfold processarConsulta
    rw [hval]
    simp only []
    rw [if_neg (by omega : ¬ a1 ≠ a2)]
    cases hf : fetch a1 (dictMesNumero m1) (dictMesNumero m2) <;> simp [hf]
  · intro fetch idNovo d1 d2 s m1 a1 m2 a2 rows hval ha hf
    unfold processarConsulta
    rw [hval]
    simp only []
    rw [if_neg (by omega : ¬ a1 ≠ a2)]
    simp [hf]

theorem C5_mesmo_ano_sincrono_witness :
    ((processarConsulta fetchDemo "id-2" "03/2022" "05/2022" []).worker = none ∧
      (processarConsulta fetchDemo "id-2" "03/2022" "05/2022" []).store = []) ∧
    (processarConsulta fetchDemo "id-2" "03/2022" "05/2022" []).resultado =
      Except.ok (SubmitResp.dados [rowDemo] 1) :=
  ⟨C5_mesmo_ano_sincrono.1 fetchDemo "id-2" "03/2022" "05/2022" [] 3 2022 5 2022
      (by decide) (by decide),
   C5_mesmo_ano_sincrono.2 fetchDemo "id-2" "03/2022" "05/2022" [] 3 2022 5 2022
      [rowDemo] (by decide) (by decide) (by decide)⟩

/-- C8: polling performs no store mutation, so on a job whose status is
terminal (concluido or erro) — as on any job — two consecutive poll calls
with no store operation in between return identical payloads. -/
theorem C8_poll_idempotente (s : Store) (id : String) (c : Consulta)
    (hc : findConsulta s id = some c)
    (ht : c.status = "concluido" ∨ c.status = "erro") :
    (poll s id).2 = s ∧ (poll (poll s id).2 id).1 = (poll s id).1 :=
  ⟨rfl, rfl⟩

theorem C8_poll_idempotente_witness :
    (poll storeDemo "j").2 = storeDemo ∧
      (poll (poll storeDemo "j").2 "j").1 = (poll storeDemo "j").1 :=
  C8_poll_idempotente storeDemo "j" cDemo (by decide) (Or.inl (by decide))

/-- C9 counterexample: iniciar_consulta does not fail when the job id is
already present — it replaces the stored record. Starting from a store
holding a 2005..2007 record under the id "job-1", creating a 2019..2021 job
under the same id succeeds and the stored record afterwards is the fresh
2019..2021 record, which differs from the old one. -/
theorem C9_counterexample :
    findConsulta (iniciarConsulta [("job-1", novaConsulta 2005 2007)]
        "job-1" 2019 2021) "job-1" = some (novaConsulta 2019 2021) ∧
      novaConsulta 2019 2021 ≠ novaConsulta 2005 2007 := by
  constructor
  · decide
  · decide

/-- C9 amended: the create operation of the job state store never fails;
whether or not a record with the same job id exists, it assigns the fresh
record to that id, replacing any existing record. -/
theorem C9_criar_sobrescreve (s : Store) (id : String) (a b : Int) :
    findConsulta (iniciarConsulta s id a b) id = some (novaConsulta a b) := by
  rw [iniciarConsulta, find_set_self]

/-- C10: salvar_metrica never raises: it always returns normally, appending
the record to the log when the underlying CSV append succeeds and leaving
the log unchanged (the metric silently dropped, the failure only logged)
when the append raises. -/
theorem C10_salvar_metrica_nunca_lanca (writeOk : Bool) (log : List Metrica)
    (m : Metrica) :
    salvarMetrica writeOk log m =
      Except.ok (if writeOk then log ++ [m] else log) := by
  cases writeOk <;> rfl

/-! Character-level bridge lemmas for the date-string validation. -/

theorem digit_ne_barra (c : Char) (h : c.isDigit = true) : ¬ c = '/' := by
  intro he
  rw [he] at h
  exact absurd h (by decide)

theorem digit_ne_menos (c : Char) (h : c.isDigit = true) : ¬ c = '-' := by
  intro he
  rw [he] at h
  exact absurd h (by decide)

theorem matches_shape (cs : List Char) (h : matchesMMYYYY cs = true) :
    ∃ d1 d2 y1 y2 y3 y4, cs = [d1, d2, '/', y1, y2, y3, y4] ∧
      d1.isDigit = true ∧ d2.isDigit = true ∧ y1.isDigit = true ∧
      y2.isDigit = true ∧ y3.isDigit = true ∧ y4.isDigit = true := by
  rcases cs with _ | ⟨d1, _ | ⟨d2, _ | ⟨sl, _ | ⟨y1, _ | ⟨y2, _ | ⟨y3, _ | ⟨y4, _ | ⟨e, t⟩⟩⟩⟩⟩⟩⟩⟩ <;>
      simp only [matchesMMYYYY, Bool.and_eq_true, decide_eq_true_eq] at h <;>
    first
    | exact absurd h (by decide)
    | (obtain ⟨⟨⟨⟨⟨⟨h1, h2⟩, hs⟩, h3⟩, h4⟩, h5⟩, h6⟩ := h
       exact ⟨d1, d2, y1, y2, y3, y4, by rw [hs], h1, h2, h3, h4, h5, h6⟩)

theorem spec_shape (cs : List Char) (h : specWellFormedMMYYYY cs = true) :
    ∃ d1 d2 y1 y2 y3 y4, cs = [d1, d2, '/', y1, y2, y3, y4] ∧
      d1.isDigit = true ∧ d2.isDigit = true ∧ y1.isDigit = true ∧
      y2.isDigit = true ∧ y3.isDigit = true ∧ y4.isDigit = true ∧
      1 ≤ digitsToNat [d1, d2] ∧ digitsToNat [d1, d2] ≤ 12 ∧
      1 ≤ digitsToNat [y1, y2, y3, y4] := by
  rcases cs with _ | ⟨d1, _ | ⟨d2, _ | ⟨sl, _ | ⟨y1, _ | ⟨y2, _ | ⟨y3, _ | ⟨y4, _ | ⟨e, t⟩⟩⟩⟩⟩⟩⟩⟩ <;>
      simp only [specWellFormedMMYYYY, Bool.and_eq_true, decide_eq_true_eq] at h <;>
    first
    | exact absurd h (by decide)
    | (obtain ⟨⟨⟨⟨⟨⟨⟨h1, h2⟩, hs⟩, h3⟩, h4⟩, h5⟩, h6⟩, ⟨hb1, hb2⟩, hb3⟩ := h
       exact ⟨d1, d2, y1, y2, y3, y4, by rw [hs], h1, h2, h3, h4, h5, h6, hb1, hb2, hb3⟩)

theorem splitChar_shape (d1 d2 y1 y2 y3 y4 : Char)
    (h1 : d1.isDigit = true) (h2 : d2.isDigit = true) (h3 : y1.isDigit = true)
    (h4 : y2.isDigit = true) (h5 : y3.isDigit = true) (h6 : y4.isDigit = true) :
    splitChar '/' [d1, d2, '/', y1, y2, y3, y4] = [[d1, d2], [y1, y2, y3, y4]] := by
  have n1 := digit_ne_barra d1 h1
  have n2 := digit_ne_barra d2 h2
  have n3 := digit_ne_barra y1 h3
  have n4 := digit_ne_barra y2 h4
  have n5 := digit_ne_barra y3 h5
  have n6 := digit_ne_barra y4 h6
  simp [splitChar, n1, n2, n3, n4, n5, n6]

theorem pyInt_digits (c : Char) (rest : List Char)
    (hall : (c :: rest).all Char.isDigit = true) :
    pyInt (c :: rest) = some ((digitsToNat (c :: rest) : Int)) := by
  have hc : c.isDigit = true := by
    rw [List.all_cons, Bool.and_eq_true] at hall
    exact hall.1
  have hm := digit_ne_menos c hc
  simp [pyInt, hm, hall]

/-- Characterization of the two date helpers on one string: the format check
passes and split_data returns (mes, ano) exactly when the string is a
well-formed MM/YYYY date in the spec sense whose value is (mes, ano) with the
year inside the hard-coded 2002..2023 window. -/
theorem valida_divide_caracterizada (s : String) (mes ano : Int) :
    (dataValida s = true ∧ splitData s = Except.ok (mes, ano)) ↔
      (specWellFormedMMYYYY s.data = true ∧ specParseMMYYYY s.data = (mes, ano) ∧
        2002 ≤ ano ∧ ano ≤ 2023) := by
  constructor
  · rintro ⟨hv, hs⟩
    unfold dataValida at hv
    rw [Bool.and_eq_true] at hv
    obtain ⟨hm, hrest⟩ := hv
    obtain ⟨d1, d2, y1, y2, y3, y4, hcs, h1, h2, h3, h4, h5, h6⟩ :=
      matches_shape s.data hm
    have hsplit := splitChar_shape d1 d2 y1 y2 y3 y4 h1 h2 h3 h4 h5 h6
    have hp1 : pyInt [d1, d2] = some ((digitsToNat [d1, d2] : Int)) :=
      pyInt_digits d1 [d2] (by simp [h1, h2])
    have hp2 : pyInt [y1, y2, y3, y4] = some ((digitsToNat [y1, y2, y3, y4] : Int)) :=
      pyInt_digits y1 [y2, y3, y4] (by simp [h3, h4, h5, h6])
    rw [hcs, hsplit] at hrest
    simp only [hp1, hp2] at hrest
    simp only [datetimeValida, Bool.and_eq_true, decide_eq_true_eq] at hrest
    obtain ⟨⟨⟨hm1, hm2⟩, hy1⟩, hy2⟩ := hrest
    unfold splitData at hs
    rw [hcs, hsplit] at hs
    simp only [hp1, hp2] at hs
    by_cases hc1 : ((digitsToNat [d1, d2] : Int) < 1 ∨
        (12 : Int) < (digitsToNat [d1, d2] : Int))
    · rw [if_pos hc1] at hs
      exact absurd hs (by simp)
    rw [if_neg hc1] at hs
    by_cases hc2 : ((digitsToNat [y1, y2, y3, y4] : Int) < 2002 ∨
        (2023 : Int) < (digitsToNat [y1, y2, y3, y4] : Int))
    · rw [if_pos hc2] at hs
      exact absurd hs (by simp)
    rw [if_neg hc2] at hs
    have hpair : ((digitsToNat [d1, d2] : Int), (digitsToNat [y1, y2, y3, y4] : Int)) =
        (mes, ano) := Except.ok.inj hs
    have hmes : ((digitsToNat [d1, d2] : Int)) = mes := congrArg Prod.fst hpair
    have hano : ((digitsToNat [y1, y2, y3, y4] : Int)) = ano := congrArg Prod.snd hpair
    refine ⟨?_, ?_, by omega, by omega⟩
    · rw [hcs]
      simp only [specWellFormedMMYYYY, Bool.and_eq_true, decide_eq_true_eq]
      exact ⟨⟨⟨⟨⟨⟨⟨h1, h2⟩, trivial⟩, h3⟩, h4⟩, h5⟩, h6⟩, ⟨by omega, by omega⟩, by omega⟩
    · rw [hcs]
      show ((digitsToNat [d1, d2] : Int), (digitsToNat [y1, y2, y3, y4] : Int)) =
        (mes, ano)
      exact hpair
  · rintro ⟨hw, hp, hr1, hr2⟩
    obtain ⟨d1, d2, y1, y2, y3, y4, hcs, h1, h2, h3, h4, h5, h6, hb1, hb2, hb3⟩ :=
      spec_shape s.data hw
    have hsplit := splitChar_shape d1 d2 y1 y2 y3 y4 h1 h2 h3 h4 h5 h6
    have hp1 : pyInt [d1, d2] = some ((digitsToNat [d1, d2] : Int)) :=
      pyInt_digits d1 [d2] (by simp [h1, h2])
    have hp2 : pyInt [y1, y2, y3, y4] = some ((digitsToNat [y1, y2, y3, y4] : Int)) :=
      pyInt_digits y1 [y2, y3, y4] (by simp [h3, h4, h5, h6])
    rw [hcs] at hp
    have hpair : ((digitsToNat [d1, d2] : Int), (digitsToNat [y1, y2, y3, y4] : Int)) =
        (mes, ano) := hp
    have hmes : ((digitsToNat [d1, d2] : Int)) = mes := congrArg Prod.fst hpair
    have hano : ((digitsToNat [y1, y2, y3, y4] : Int)) = ano := congrArg Prod.snd hpair
    constructor
    · unfold dataValida
      rw [hcs, hsplit, Bool.and_eq_true]
      constructor
      · simp only [matchesMMYYYY, Bool.and_eq_true, decide_eq_true_eq]
        exact ⟨⟨⟨⟨⟨⟨h1, h2⟩, trivial⟩, h3⟩, h4⟩, h5⟩, h6⟩
      · simp only [hp1, hp2]
        simp only [datetimeValida, Bool.and_eq_true, decide_eq_true_eq]
        exact ⟨⟨⟨by omega, by omega⟩, by omega⟩, by omega⟩
    · unfold splitData
      rw [hcs, hsplit]
      simp only [hp1, hp2]
      rw [if_neg (by omega), if_neg (by omega), hmes, hano]

/-- C3 counterexample: the pair ("01/2024", "02/2024") consists of two
well-formed MM/YYYY dates with the start not after the end, yet
validar_parametros raises (a ValueError from the 2002..2023 year window of
split_data), refuting the claimed equivalence. -/
theorem C3_counterexample :
    specWellFormedMMYYYY ("01/2024" : String).data = true ∧
      specWellFormedMMYYYY ("02/2024" : String).data = true ∧
      ¬ specDepois (specParseMMYYYY ("01/2024" : String).data)
        (specParseMMYYYY ("02/2024" : String).data) ∧
      validarParametros "01/2024" "02/2024" =
        Except.error "Erro ao converter data: Ano fora do intervalo válido." := by
  refine ⟨by decide, by decide, by decide, by decide⟩

/-- C3 amended: validar_parametros returns the parsed
(start month, start year, end month, end year) exactly when both strings are
well-formed MM/YYYY dates, both years additionally lie in the hard-coded
2002..2023 window, and the start is not chronologically after the end; in
every other case it raises a ValueError. -/
theorem C3_validacao_corrigida (d1 d2 : String) (m1 a1 m2 a2 : Int) :
    validarParametros d1 d2 = Except.ok (m1, a1, m2, a2) ↔
      (specWellFormedMMYYYY d1.data = true ∧ specWellFormedMMYYYY d2.data = true ∧
        specParseMMYYYY d1.data = (m1, a1) ∧ specParseMMYYYY d2.data = (m2, a2) ∧
        2002 ≤ a1 ∧ a1 ≤ 2023 ∧ 2002 ≤ a2 ∧ a2 ≤ 2023 ∧
        ¬ specDepois (m1, a1) (m2, a2)) := by
  constructor
  · intro hv
    unfold validarParametros at hv
    by_cases he : d1 = "" ∨ d2 = ""
    · rw [if_pos he] at hv
      exact absurd hv (by simp)
    rw [if_neg he] at hv
    by_cases hdv : ¬ (dataValida d1 = true ∧ dataValida d2 = true)
    · rw [if_pos hdv] at hv
      exact absurd hv (by simp)
    rw [if_neg hdv] at hv
    obtain ⟨hv1, hv2⟩ := not_not.mp hdv
    cases hs1 : splitData d1 with
    | error e =>
        rw [hs1] at hv
        exact absurd hv (by simp)
    | ok p1 =>
        obtain ⟨mes1, ano1⟩ := p1
        rw [hs1] at hv
        cases hs2 : splitData d2 with
        | error e =>
            rw [hs2] at hv
            exact absurd hv (by simp)
        | ok p2 =>
            obtain ⟨mes2, ano2⟩ := p2
            rw [hs2] at hv
            simp only [] at hv
            by_cases hord : (ano1 > ano2 ∨ (ano1 = ano2 ∧ mes1 > mes2))
            · rw [if_pos hord] at hv
              exact absurd hv (by simp)
            rw [if_neg hord] at hv
            have htup : (mes1, ano1, mes2, ano2) = (m1, a1, m2, a2) :=
              Except.ok.inj hv
            have hq1 : mes1 = m1 := congrArg (fun t => t.1) htup
            have hq2 : ano1 = a1 := congrArg (fun t => t.2.1) htup
            have hq3 : mes2 = m2 := congrArg (fun t => t.2.2.1) htup
            have hq4 : ano2 = a2 := congrArg (fun t => t.2.2.2) htup
            subst hq1
            subst hq2
            subst hq3
            subst hq4
            obtain ⟨hw1, hp1, hr1a, hr1b⟩ :=
              (valida_divide_caracterizada d1 mes1 ano1).mp ⟨hv1, hs1⟩
            obtain ⟨hw2, hp2, hr2a, hr2b⟩ :=
              (valida_divide_caracterizada d2 mes2 ano2).mp ⟨hv2, hs2⟩
            exact ⟨hw1, hw2, hp1, hp2, hr1a, hr1b, hr2a, hr2b, hord⟩
  · rintro ⟨hw1, hw2, hp1, hp2, hr1a, hr1b, hr2a, hr2b, hnd⟩
    obtain ⟨hv1, hs1⟩ :=
      (valida_divide_caracterizada d1 m1 a1).mpr ⟨hw1, hp1, hr1a, hr1b⟩
    obtain ⟨hv2, hs2⟩ :=
      (valida_divide_caracterizada d2 m2 a2).mpr ⟨hw2, hp2, hr2a, hr2b⟩
    have hne1 : ¬ d1 = "" := by
      intro he
      rw [he] at hw1
      exact absurd hw1 (by decide)
    have hne2 : ¬ d2 = "" := by
      intro he
      rw [he] at hw2
      exact absurd hw2 (by decide)
    unfold validarParametros
    rw [if_neg (fun hor => hor.elim hne1 hne2),
      if_neg (not_not_intro ⟨hv1, hv2⟩), hs1, hs2]
    simp only []
    rw [if_neg (show ¬ (a1 > a2 ∨ (a1 = a2 ∧ m1 > m2)) from hnd)]
